import Mathlib

/-!
Shallow embedding of `src/common/VirtualTerminal.cpp` (SDDM's virtual
terminal controller).  Each kernel call (open, ioctl, signal) is modelled
by a record of kernel responses; every embedded function threads the
per-VT state it manipulates and emits a trace of `Event`s in the order
the source issues the corresponding calls.
-/

namespace SDDM
namespace VirtualTerminal

/-- `SIGRTMAX` on Linux/glibc (source line 35). -/
def RELEASE_DISPLAY_SIGNAL : Nat := 64

/-- `SIGRTMAX - 1` (source line 36). -/
def ACQUIRE_DISPLAY_SIGNAL : Nat := 63

/-- `VT_AUTO` from `linux/vt.h`. -/
def VT_AUTO : Nat := 0

/-- `VT_PROCESS` from `linux/vt.h`. -/
def VT_PROCESS : Nat := 1

/-- `KD_TEXT` from `linux/kd.h`. -/
def KD_TEXT : Nat := 0

/-- `KD_GRAPHICS` from `linux/kd.h`. -/
def KD_GRAPHICS : Nat := 1

/-- One observable kernel interaction.  `openDev path fd` records an
`open` of `/dev/tty<path>` (`path = 0` is the master `/dev/tty0`)
returning descriptor `fd` (`-1` on failure, as in C). -/
inductive Event where
  | openDev (path : Int) (fd : Int)
  | closeDev (fd : Int)
  | writeClear (fd : Int)
  | kdSetModeCall (fd : Int) (m : Nat)
  | kdGetModeCall (fd : Int)
  | vtGetModeCall (fd : Int)
  | vtSetModeCall (fd : Int) (mode rel acq : Nat)
  | installHandler (sig : Nat)
  | vtGetStateCall (fd : Int)
  | vtOpenQryCall (fd : Int)
  | vtActivateCall (fd : Int) (vt : Int)
  | vtWaitActiveCall (fd : Int) (vt : Int)
  deriving DecidableEq, Repr

/-- The kernel-side state of one virtual terminal: its `vt_mode` fields
and its console display mode. -/
structure VtState where
  vtMode : Nat
  kdMode : Nat
  relsig : Nat
  acqsig : Nat
  deriving DecidableEq, Repr

/-- Which of the mode-related ioctls fail (each kernel call may fail
independently; a failed call leaves the VT state unchanged). -/
structure Faults where
  getModeFails : Bool
  kdGetModeFails : Bool
  setModeFails : Bool
  kdSetModeFails : Bool
  deriving DecidableEq, Repr

/-- All mode-related ioctls succeed. -/
def noFaults : Faults := ⟨false, false, false, false⟩

/-- Source lines 52–69.  Issues `VT_SETMODE` with
`mode = VT_PROCESS`, `relsig = SIGRTMAX`, `acqsig = SIGRTMAX - 1`
(returning `false` if the ioctl fails), then registers the release and
acquire signal handlers unconditionally. -/
def handleVtSwitches (setModeFails : Bool) (fd : Int) (s : VtState) :
    Bool × VtState × List Event :=
  let evs := [Event.vtSetModeCall fd VT_PROCESS RELEASE_DISPLAY_SIGNAL ACQUIRE_DISPLAY_SIGNAL,
              Event.installHandler RELEASE_DISPLAY_SIGNAL,
              Event.installHandler ACQUIRE_DISPLAY_SIGNAL]
  if setModeFails then
    (false, s, evs)
  else
    (true,
     { s with vtMode := VT_PROCESS,
              relsig := RELEASE_DISPLAY_SIGNAL,
              acqsig := ACQUIRE_DISPLAY_SIGNAL }, evs)

/-- Which diagnostic `fixVtMode` emits when it returns (source lines
107–116): `fixFailed` is the `qCritical "Failed to set up VT mode"`
path (`!ok`), `fixed` is `"VT mode fixed"` (`modeFixed`), and
`noFixNeeded` is `"VT mode didn't need to be fixed"`.  The spec's
`CONSISTENT` terminal state corresponds to `noFixNeeded`. -/
inductive FixOutcome where
  | fixFailed
  | fixed
  | noFixNeeded
  deriving DecidableEq, Repr

/-- Source lines 71–117.  `vt_mode getmodeReply = { 0 }` and
`int kernelDisplayMode = 0` are zero-initialized, so a failed
`VT_GETMODE` leaves `mode = 0 = VT_AUTO` and a failed `KDGETMODE`
leaves `kernelDisplayMode = 0 = KD_TEXT`; the source then branches on
those values.  In the `!vt_auto` repair branch `ok` is overwritten by
the result of `handleVtSwitches`. -/
def fixVtMode (f : Faults) (fd : Int) (vtAuto : Bool) (s : VtState) :
    FixOutcome × VtState × List Event :=
  let modeVal : Nat := if f.getModeFails then 0 else s.vtMode
  let ok1 : Bool := !f.getModeFails
  let t1 := [Event.vtGetModeCall fd]
  if modeVal ≠ VT_AUTO then
    (if ok1 then .noFixNeeded else .fixFailed, s, t1)
  else
    let kdVal : Nat := if f.kdGetModeFails then 0 else s.kdMode
    let ok2 : Bool := ok1 && !f.kdGetModeFails
    let t2 := t1 ++ [Event.kdGetModeCall fd]
    if kdVal = KD_TEXT then
      (if ok2 then .noFixNeeded else .fixFailed, s, t2)
    else if vtAuto then
      let t3 := t2 ++ [Event.kdSetModeCall fd KD_TEXT]
      if f.kdSetModeFails then
        (.fixFailed, s, t3)
      else
        (if ok2 then .noFixNeeded else .fixFailed, { s with kdMode := KD_TEXT }, t3)
    else
      let r := handleVtSwitches f.setModeFails fd s
      (if r.1 then .fixed else .fixFailed, r.2.1, t2 ++ r.2.2)

/-- Kernel responses for `fetchAvailableVt` and `setUpNewVt`:
the fd returned by `open("/dev/tty0")` (negative on failure),
the `VT_GETSTATE` reply (`some v_active` or failure), and the
`VT_OPENQRY` reply (`some vt` or failure). -/
structure FKernel where
  masterFd : Int
  getStateRes : Option Nat
  openQryRes : Option Int
  deriving DecidableEq, Repr

/-- Source lines 119–143.  Opens the master device (hard failure `-1`
if `fd < 0`); queries `VT_GETSTATE` and returns `v_active` on success;
on query failure falls through to `VT_OPENQRY`, returning the allocated
id, or `-1` if that also fails.  The scope guard closes `fd` on every
path after the open succeeded. -/
def fetchAvailableVt (k : FKernel) : Int × List Event :=
  let fd := k.masterFd
  if fd < 0 then
    (-1, [Event.openDev 0 fd])
  else
    match k.getStateRes with
    | some a =>
        ((a : Int), [Event.openDev 0 fd, Event.vtGetStateCall fd, Event.closeDev fd])
    | none =>
      match k.openQryRes with
      | some vt =>
          (vt, [Event.openDev 0 fd, Event.vtGetStateCall fd,
                Event.vtOpenQryCall fd, Event.closeDev fd])
      | none =>
          (-1, [Event.openDev 0 fd, Event.vtGetStateCall fd,
                Event.vtOpenQryCall fd, Event.closeDev fd])

/-- Source lines 145–175.  Opens the master device (hard failure `-1`);
requests `VT_OPENQRY`; on failure returns `-1`; if the allocated id is
non-positive, falls back to `VT_GETSTATE` and returns `v_active`
(or `-1` if that query fails); otherwise returns the allocated id. -/
def setUpNewVt (k : FKernel) : Int × List Event :=
  let fd := k.masterFd
  if fd < 0 then
    (-1, [Event.openDev 0 fd])
  else
    match k.openQryRes with
    | none =>
        (-1, [Event.openDev 0 fd, Event.vtOpenQryCall fd, Event.closeDev fd])
    | some vt =>
      if vt ≤ 0 then
        match k.getStateRes with
        | none =>
            (-1, [Event.openDev 0 fd, Event.vtOpenQryCall fd,
                  Event.vtGetStateCall fd, Event.closeDev fd])
        | some a =>
            ((a : Int), [Event.openDev 0 fd, Event.vtOpenQryCall fd,
                         Event.vtGetStateCall fd, Event.closeDev fd])
      else
        (vt, [Event.openDev 0 fd, Event.vtOpenQryCall fd, Event.closeDev fd])

/-- Result of one blocking `VT_ACTIVATE` / `VT_WAITACTIVE` ioctl:
success, failure with `errno == EINTR`, or failure with another errno. -/
inductive ActRes where
  | ok
  | eintr
  | err
  deriving DecidableEq, Repr

/-- Source lines 214–228, the `do { ... } while (errno == EINTR)` loop.
The kernel's responses to the successive activate/wait ioctls are
consumed in order from the list (an exhausted list means the call
succeeds).  Returns the events issued and the non-`EINTR` result that
ended the loop: an `EINTR` from activate retries the activate; a hard
activate failure breaks out, skipping the wait; an `EINTR` from wait
re-runs the whole loop body; any other wait result ends the loop. -/
def runSwitchLoop (fd vt : Int) : List ActRes → List Event × ActRes
  | [] => ([Event.vtActivateCall fd vt, Event.vtWaitActiveCall fd vt], .ok)
  | .eintr :: rest =>
      let r := runSwitchLoop fd vt rest
      (Event.vtActivateCall fd vt :: r.1, r.2)
  | .err :: _ => ([Event.vtActivateCall fd vt], .err)
  | [.ok] => ([Event.vtActivateCall fd vt, Event.vtWaitActiveCall fd vt], .ok)
  | .ok :: .eintr :: rest =>
      let r := runSwitchLoop fd vt rest
      (Event.vtActivateCall fd vt :: Event.vtWaitActiveCall fd vt :: r.1, r.2)
  | .ok :: .ok :: _ => ([Event.vtActivateCall fd vt, Event.vtWaitActiveCall fd vt], .ok)
  | .ok :: .err :: _ => ([Event.vtActivateCall fd vt, Event.vtWaitActiveCall fd vt], .err)

/-- Kernel responses for `jumpToVt`: the two `open` results, whether
the `KDSETMODE KD_GRAPHICS` on the target fails, the faults seen by
`fixVtMode` on the master handle, whether the `VT_SETMODE` of the
step-4 `handleVtSwitches` fails, the initial states of the active and
target VTs, and the response stream of the activate/wait loop. -/
structure JKernel where
  masterFd : Int
  targetFd : Int → Int
  kdSetGraphicsFails : Bool
  activeF : Faults
  hsSetModeFails : Bool
  activeInit : VtState
  targetInit : VtState
  responses : List ActRes

/-- The handle `jumpToVt` uses for the handshake and the activate/wait
loop (`fd` in the source): the target fd when its open succeeded,
otherwise the master fd. -/
def operativeFd (k : JKernel) (vt : Int) : Int :=
  if k.targetFd vt ≠ -1 then k.targetFd vt else k.masterFd

/-- Source lines 177–232.  Opens `/dev/tty0` (result unchecked) and
`/dev/tty<vt>`; if the target open succeeded (`vtFd != -1`) clears it,
sets `KD_GRAPHICS` on it and runs `fixVtMode` on the master handle,
else falls back to the master handle; if `!vt_auto` runs
`handleVtSwitches` on the operative handle; runs the activate/wait
loop; closes `activeVtFd` unconditionally and `vtFd` if it was
opened. -/
def jumpToVt (k : JKernel) (vt : Int) (vtAuto : Bool) : List Event :=
  let activeVtFd := k.masterFd
  let vtFd := k.targetFd vt
  let openEvs := [Event.openDev 0 activeVtFd, Event.openDev vt vtFd]
  let preEvs :=
    if vtFd ≠ -1 then
      [Event.writeClear vtFd, Event.kdSetModeCall vtFd KD_GRAPHICS] ++
        (fixVtMode k.activeF activeVtFd vtAuto k.activeInit).2.2
    else
      []
  let fd := operativeFd k vt
  let fdState :=
    if vtFd ≠ -1 then
      (if k.kdSetGraphicsFails then k.targetInit
       else { k.targetInit with kdMode := KD_GRAPHICS })
    else k.activeInit
  let hsEvs :=
    if vtAuto then []
    else (handleVtSwitches k.hsSetModeFails fd fdState).2.2
  let loopEvs := (runSwitchLoop fd vt k.responses).1
  let closeEvs := Event.closeDev activeVtFd ::
    (if vtFd ≠ -1 then [Event.closeDev vtFd] else [])
  openEvs ++ preEvs ++ hsEvs ++ loopEvs ++ closeEvs

/-- `true` on the events of a VT-activate ioctl. -/
def isActivate : Event → Bool
  | Event.vtActivateCall _ _ => true
  | _ => false

/-- `true` on the calls that mutate mode state or register a handshake
handler (a "repair action"): `VT_SETMODE`, `KDSETMODE`, `signal`. -/
def isRepairEvent : Event → Bool
  | Event.vtSetModeCall _ _ _ _ => true
  | Event.kdSetModeCall _ _ => true
  | Event.installHandler _ => true
  | _ => false

/-- Number of `open` calls in `t` that returned descriptor `f`. -/
def countOpens (t : List Event) (f : Int) : Nat :=
  t.countP (fun e => match e with
    | Event.openDev _ fd => decide (fd = f)
    | _ => false)

/-- Number of `close` calls in `t` on descriptor `f`. -/
def countCloses (t : List Event) (f : Int) : Nat :=
  t.countP (fun e => match e with
    | Event.closeDev fd => decide (fd = f)
    | _ => false)

/-! ### Helper lemmas shared by several claims -/

theorem handleVtSwitches_trace (b : Bool) (fd : Int) (s : VtState) :
    (handleVtSwitches b fd s).2.2 =
      [Event.vtSetModeCall fd VT_PROCESS RELEASE_DISPLAY_SIGNAL ACQUIRE_DISPLAY_SIGNAL,
       Event.installHandler RELEASE_DISPLAY_SIGNAL,
       Event.installHandler ACQUIRE_DISPLAY_SIGNAL] := by
  unfold handleVtSwitches
  split <;> rfl

theorem fixVtMode_trace_mem (f : Faults) (fd : Int) (b : Bool) (s : VtState) :
    ∀ e ∈ (fixVtMode f fd b s).2.2,
      e = Event.vtGetModeCall fd ∨ e = Event.kdGetModeCall fd ∨
      e = Event.kdSetModeCall fd KD_TEXT ∨
      e = Event.vtSetModeCall fd VT_PROCESS RELEASE_DISPLAY_SIGNAL ACQUIRE_DISPLAY_SIGNAL ∨
      e = Event.installHandler RELEASE_DISPLAY_SIGNAL ∨
      e = Event.installHandler ACQUIRE_DISPLAY_SIGNAL := by
  intro e he
  unfold fixVtMode handleVtSwitches at he
  dsimp only at he
  iterate 6 all_goals try split at he
  all_goals
    simp only [List.cons_append, List.nil_append, List.mem_cons,
      List.mem_singleton, List.not_mem_nil, or_false] at he
  all_goals tauto

theorem runSwitchLoop_trace_mem (fd vt : Int) :
    ∀ (s : List ActRes), ∀ e ∈ (runSwitchLoop fd vt s).1,
      e = Event.vtActivateCall fd vt ∨ e = Event.vtWaitActiveCall fd vt
  | [] => by
      intro e he
      simp only [runSwitchLoop, List.mem_cons, List.mem_singleton,
        List.not_mem_nil, or_false] at he
      tauto
  | ActRes.eintr :: rest => by
      intro e he
      simp only [runSwitchLoop, List.mem_cons] at he
      rcases he with h | h
      · exact Or.inl h
      · exact runSwitchLoop_trace_mem fd vt rest e h
  | ActRes.err :: rest => by
      intro e he
      simp only [runSwitchLoop, List.mem_singleton] at he
      exact Or.inl he
  | [ActRes.ok] => by
      intro e he
      simp only [runSwitchLoop, List.mem_cons, List.mem_singleton,
        List.not_mem_nil, or_false] at he
      tauto
  | ActRes.ok :: ActRes.eintr :: rest => by
      intro e he
      simp only [runSwitchLoop, List.mem_cons] at he
      rcases he with h | h | h
      · exact Or.inl h
      · exact Or.inr h
      · exact runSwitchLoop_trace_mem fd vt rest e h
  | ActRes.ok :: ActRes.ok :: rest => by
      intro e he
      simp only [runSwitchLoop, List.mem_cons, List.mem_singleton,
        List.not_mem_nil, or_false] at he
      tauto
  | ActRes.ok :: ActRes.err :: rest => by
      intro e he
      simp only [runSwitchLoop, List.mem_cons, List.mem_singleton,
        List.not_mem_nil, or_false] at he
      tauto

theorem runSwitchLoop_res_ne_eintr (fd vt : Int) :
    ∀ (s : List ActRes), (runSwitchLoop fd vt s).2 ≠ ActRes.eintr
  | [] => by simp [runSwitchLoop]
  | ActRes.eintr :: rest => by
      simpa [runSwitchLoop] using runSwitchLoop_res_ne_eintr fd vt rest
  | ActRes.err :: rest => by simp [runSwitchLoop]
  | [ActRes.ok] => by simp [runSwitchLoop]
  | ActRes.ok :: ActRes.eintr :: rest => by
      simpa [runSwitchLoop] using runSwitchLoop_res_ne_eintr fd vt rest
  | ActRes.ok :: ActRes.ok :: rest => by simp [runSwitchLoop]
  | ActRes.ok :: ActRes.err :: rest => by simp [runSwitchLoop]

theorem runSwitchLoop_head (fd vt : Int) (s : List ActRes) :
    ∃ t, (runSwitchLoop fd vt s).1 = Event.vtActivateCall fd vt :: t := by
  rcases s with _ | ⟨a, rest⟩
  · exact ⟨_, rfl⟩
  · cases a
    · rcases rest with _ | ⟨w, rest2⟩
      · exact ⟨_, rfl⟩
      · cases w <;> exact ⟨_, rfl⟩
    · exact ⟨_, rfl⟩
    · exact ⟨_, rfl⟩

theorem countOpens_append (t₁ t₂ : List Event) (f : Int) :
    countOpens (t₁ ++ t₂) f = countOpens t₁ f + countOpens t₂ f := by
  simp [countOpens, List.countP_append]

theorem countCloses_append (t₁ t₂ : List Event) (f : Int) :
    countCloses (t₁ ++ t₂) f = countCloses t₁ f + countCloses t₂ f := by
  simp [countCloses, List.countP_append]

theorem countOpens_fixVtMode (fa : Faults) (fd : Int) (b : Bool) (s : VtState) (f : Int) :
    countOpens (fixVtMode fa fd b s).2.2 f = 0 := by
  refine List.countP_eq_zero.mpr ?_
  intro e he
  rcases fixVtMode_trace_mem fa fd b s e he with h|h|h|h|h|h <;> subst h <;> simp

theorem countCloses_fixVtMode (fa : Faults) (fd : Int) (b : Bool) (s : VtState) (f : Int) :
    countCloses (fixVtMode fa fd b s).2.2 f = 0 := by
  refine List.countP_eq_zero.mpr ?_
  intro e he
  rcases fixVtMode_trace_mem fa fd b s e he with h|h|h|h|h|h <;> subst h <;> simp

theorem countOpens_handleVtSwitches (b : Bool) (fd : Int) (s : VtState) (f : Int) :
    countOpens (handleVtSwitches b fd s).2.2 f = 0 := by
  rw [handleVtSwitches_trace]
  rfl

theorem countCloses_handleVtSwitches (b : Bool) (fd : Int) (s : VtState) (f : Int) :
    countCloses (handleVtSwitches b fd s).2.2 f = 0 := by
  rw [handleVtSwitches_trace]
  rfl

theorem countOpens_runSwitchLoop (fd vt : Int) (s : List ActRes) (f : Int) :
    countOpens (runSwitchLoop fd vt s).1 f = 0 := by
  refine List.countP_eq_zero.mpr ?_
  intro e he
  rcases runSwitchLoop_trace_mem fd vt s e he with h|h <;> subst h <;> simp

theorem countCloses_runSwitchLoop (fd vt : Int) (s : List ActRes) (f : Int) :
    countCloses (runSwitchLoop fd vt s).1 f = 0 := by
  refine List.countP_eq_zero.mpr ?_
  intro e he
  rcases runSwitchLoop_trace_mem fd vt s e he with h|h <;> subst h <;> simp

/-! ### Claim theorems -/

/-- C3 counterexample: with VT mode `AUTO` and a kernel display-mode value
of `2` (neither `KD_TEXT` nor `KD_GRAPHICS`, both queries succeeding),
`fixVtMode` does not stop: the `vt_auto` strategy issues a `KDSETMODE KD_TEXT`
repair call and the handshake strategy issues a `VT_SETMODE` install, because
the source tests `kernelDisplayMode == KD_TEXT`, not `!= KD_GRAPHICS`. -/
theorem C3_counterexample :
    Event.kdSetModeCall 7 KD_TEXT ∈ (fixVtMode noFaults 7 true ⟨0, 2, 0, 0⟩).2.2 ∧
    Event.vtSetModeCall 7 VT_PROCESS RELEASE_DISPLAY_SIGNAL ACQUIRE_DISPLAY_SIGNAL ∈
      (fixVtMode noFaults 7 false ⟨0, 2, 0, 0⟩).2.2 := by
  decide

/-- C3 (amended): in Mode Repair with VT mode `AUTO` and both queries
succeeding, the machine stops in `CONSISTENT` (`noFixNeeded`) with no
further call exactly when the display mode reads `TEXT`; any non-`TEXT`
display-mode value (GRAPHICS or otherwise) triggers a repair action. -/
theorem C3_text_stops_consistent (f : Faults) (fd : Int) (b : Bool) (s : VtState)
    (h1 : f.getModeFails = false) (h2 : f.kdGetModeFails = false)
    (hm : s.vtMode = VT_AUTO) :
    (s.kdMode = KD_TEXT →
      fixVtMode f fd b s =
        (FixOutcome.noFixNeeded, s, [Event.vtGetModeCall fd, Event.kdGetModeCall fd])) ∧
    (s.kdMode ≠ KD_TEXT → ∃ e ∈ (fixVtMode f fd b s).2.2, isRepairEvent e = true) := by
  rcases f with ⟨g, kq, sm, ks⟩
  simp only at h1 h2
  subst h1 h2
  constructor
  · intro hk
    simp [fixVtMode, hm, hk, VT_AUTO, KD_TEXT]
  · intro hk
    simp only [KD_TEXT] at hk
    cases b
    · refine ⟨Event.vtSetModeCall fd VT_PROCESS RELEASE_DISPLAY_SIGNAL
        ACQUIRE_DISPLAY_SIGNAL, ?_, rfl⟩
      simp [fixVtMode, hm, hk, VT_AUTO, KD_TEXT, handleVtSwitches_trace]
    · refine ⟨Event.kdSetModeCall fd KD_TEXT, ?_, rfl⟩
      cases ks <;> simp [fixVtMode, hm, hk, VT_AUTO, KD_TEXT]

/-- C3 witness: Mode Repair at a concrete TEXT display mode stops with
only the two queries issued. -/
theorem C3_text_stops_consistent_witness :
    fixVtMode noFaults 5 true ⟨0, 0, 0, 0⟩ =
      (FixOutcome.noFixNeeded, ⟨0, 0, 0, 0⟩,
        [Event.vtGetModeCall 5, Event.kdGetModeCall 5]) :=
  (C3_text_stops_consistent noFaults 5 true ⟨0, 0, 0, 0⟩ rfl rfl rfl).1 rfl

/-- C4 counterexample: when the `VT_GETMODE` query fails while the display
mode is `GRAPHICS` and `vt_auto` is false, `fixVtMode` does not proceed
directly to the "fix failed" outcome: the zero-initialized reply reads as
`VT_AUTO`, so the display-mode query is still issued, the handshake repair
is performed, and the successful `handleVtSwitches` overwrites `ok`, ending
in the `fixed` outcome instead of `fixFailed`. -/
theorem C4_counterexample :
    (fixVtMode ⟨true, false, false, false⟩ 7 false ⟨3, 1, 0, 0⟩).1 = FixOutcome.fixed ∧
    Event.kdGetModeCall 7 ∈ (fixVtMode ⟨true, false, false, false⟩ 7 false ⟨3, 1, 0, 0⟩).2.2 ∧
    Event.vtSetModeCall 7 VT_PROCESS RELEASE_DISPLAY_SIGNAL ACQUIRE_DISPLAY_SIGNAL ∈
      (fixVtMode ⟨true, false, false, false⟩ 7 false ⟨3, 1, 0, 0⟩).2.2 := by
  decide

/-- C4 (amended): when the VT-mode query fails, the failure is recorded and
the caller's switch is never aborted, but the machine does not stop: the
zero-initialized reply reads as `AUTO`, so the display-mode query is always
still issued.  If the display mode reads `TEXT` (or its query fails), the
terminal outcome is "fix failed" with no repair action; otherwise the repair
runs: the `vt_auto` strategy still ends in "fix failed" (the recorded
failure survives), while a successful handshake install overwrites the
recorded failure and reports `fixed`. -/
theorem C4_getmode_failure_still_queries (f : Faults) (fd : Int) (b : Bool) (s : VtState)
    (hq : f.getModeFails = true) :
    Event.kdGetModeCall fd ∈ (fixVtMode f fd b s).2.2 ∧
    ((f.kdGetModeFails = true ∨ s.kdMode = KD_TEXT) →
      fixVtMode f fd b s =
        (FixOutcome.fixFailed, s, [Event.vtGetModeCall fd, Event.kdGetModeCall fd])) ∧
    (f.kdGetModeFails = false → s.kdMode ≠ KD_TEXT → b = false → f.setModeFails = false →
      (fixVtMode f fd b s).1 = FixOutcome.fixed) ∧
    (f.kdGetModeFails = false → s.kdMode ≠ KD_TEXT → b = true →
      (fixVtMode f fd b s).1 = FixOutcome.fixFailed) := by
  rcases f with ⟨g, kq, sm, ks⟩
  simp only at hq
  subst hq
  refine ⟨?_, ?_, ?_, ?_⟩
  · unfold fixVtMode handleVtSwitches
    dsimp only
    iterate 6 all_goals try split
    all_goals simp_all [VT_AUTO]
  · rintro (hkq | hk)
    · subst hkq
      simp [fixVtMode, VT_AUTO, KD_TEXT]
    · simp only [KD_TEXT] at hk
      cases kq <;> simp [fixVtMode, VT_AUTO, KD_TEXT, hk]
  · rintro hkq hk rfl hsm
    subst hkq hsm
    simp only [KD_TEXT] at hk
    simp [fixVtMode, handleVtSwitches, VT_AUTO, KD_TEXT, hk]
  · rintro hkq hk rfl
    subst hkq
    simp only [KD_TEXT] at hk
    cases ks <;> simp [fixVtMode, VT_AUTO, KD_TEXT, hk]

/-- C4 witness: the amended theorem applied at a concrete failing query. -/
theorem C4_getmode_failure_still_queries_witness :
    Event.kdGetModeCall 7 ∈
      (fixVtMode ⟨true, false, false, false⟩ 7 true ⟨3, 1, 0, 0⟩).2.2 :=
  (C4_getmode_failure_still_queries ⟨true, false, false, false⟩ 7 true ⟨3, 1, 0, 0⟩ rfl).1

/-- C9: Mode Repair is idempotent.  If the state was the inconsistent
`AUTO`+`GRAPHICS` combination and all kernel calls succeed, then after a
first `fixVtMode` resolved it (by either strategy, i.e. for either value of
`vt_auto`), an immediately following second call on the same handle reports
`CONSISTENT` (`noFixNeeded`) and issues no mode-set, display-mode-set or
handler-install call. -/
theorem C9_fix_idempotent (fd : Int) (b : Bool) (s : VtState)
    (hm : s.vtMode = VT_AUTO) (hk : s.kdMode = KD_GRAPHICS) :
    (fixVtMode noFaults fd b (fixVtMode noFaults fd b s).2.1).1 = FixOutcome.noFixNeeded ∧
    ∀ e ∈ (fixVtMode noFaults fd b (fixVtMode noFaults fd b s).2.1).2.2,
      isRepairEvent e = false := by
  rcases s with ⟨m, kd, r, a⟩
  simp only at hm hk
  subst hm hk
  cases b
  · simp [fixVtMode, noFaults, handleVtSwitches, VT_AUTO, VT_PROCESS,
      KD_GRAPHICS, KD_TEXT, isRepairEvent]
  · simp [fixVtMode, noFaults, VT_AUTO, KD_GRAPHICS, KD_TEXT, isRepairEvent]

/-- C9 witness: the idempotence theorem at a concrete inconsistent state. -/
theorem C9_fix_idempotent_witness :
    (fixVtMode noFaults 5 true (fixVtMode noFaults 5 true ⟨0, 1, 0, 0⟩).2.1).1 =
      FixOutcome.noFixNeeded :=
  (C9_fix_idempotent 5 true ⟨0, 1, 0, 0⟩ rfl rfl).1

/-- C6: if the master open succeeds, a failed `VT_GETSTATE` query makes
`fetchAvailableVt` fall through to the `VT_OPENQRY` allocation (the query
failure is never returned directly): it returns the allocated id, or `-1`
only when the allocation also fails; when the state query succeeds it
returns the active VT id and no allocation call is made. -/
theorem C6_state_query_failure_falls_through (k : FKernel) (hfd : 0 ≤ k.masterFd) :
    (k.getStateRes = none →
      Event.vtOpenQryCall k.masterFd ∈ (fetchAvailableVt k).2 ∧
      (∀ v : Int, k.openQryRes = some v → (fetchAvailableVt k).1 = v) ∧
      (k.openQryRes = none → (fetchAvailableVt k).1 = -1)) ∧
    (∀ a : Nat, k.getStateRes = some a →
      (fetchAvailableVt k).1 = (a : Int) ∧
      Event.vtOpenQryCall k.masterFd ∉ (fetchAvailableVt k).2) := by
  have h' : ¬ k.masterFd < 0 := by omega
  rcases k with ⟨m, gs, oq⟩
  simp only at h' ⊢
  constructor
  · rintro rfl
    rcases oq with _ | v <;> simp [fetchAvailableVt, h']
  · rintro a rfl
    simp [fetchAvailableVt, h']

/-- C6 witness: failed state query, allocation returns 5. -/
theorem C6_state_query_failure_falls_through_witness :
    (fetchAvailableVt ⟨3, none, some 5⟩).1 = 5 :=
  ((C6_state_query_failure_falls_through ⟨3, none, some 5⟩ (by decide)).1 rfl).2.1 5 rfl

/-- C7: if the master open succeeds, allocation succeeds with a
non-positive id and the active-VT query succeeds, `setUpNewVt` falls back
to the active VT id (a recoverable observation, not a hard failure) and
closes its handle. -/
theorem C7_nonpositive_allocation_falls_back (k : FKernel) (v : Int) (a : Nat)
    (hfd : 0 ≤ k.masterFd) (hq : k.openQryRes = some v) (hv : v ≤ 0)
    (hs : k.getStateRes = some a) :
    setUpNewVt k = ((a : Int),
      [Event.openDev 0 k.masterFd, Event.vtOpenQryCall k.masterFd,
       Event.vtGetStateCall k.masterFd, Event.closeDev k.masterFd]) := by
  have h' : ¬ k.masterFd < 0 := by omega
  rcases k with ⟨m, gs, oq⟩
  simp only at h' hq hs ⊢
  subst hq hs
  simp [setUpNewVt, h', hv]

/-- C7 witness: allocation yields 0, active-VT query yields 2, so
`setUpNewVt` returns 2 (spec scenario 3). -/
theorem C7_nonpositive_allocation_falls_back_witness :
    setUpNewVt ⟨3, some 2, some 0⟩ = ((2 : Int),
      [Event.openDev 0 3, Event.vtOpenQryCall 3,
       Event.vtGetStateCall 3, Event.closeDev 3]) :=
  C7_nonpositive_allocation_falls_back ⟨3, some 2, some 0⟩ 0 2 (by decide) rfl
    (by decide) rfl

/-- C10: when the state query fails and allocation succeeds,
`fetchAvailableVt` returns the kernel's allocated id unchanged even when it
is non-positive — no fall-back-to-active-VT check is applied, unlike
`setUpNewVt`, which on the same non-positive allocation result returns the
active VT id instead. -/
theorem C10_allocation_result_passthrough (k : FKernel) (v : Int)
    (hfd : 0 ≤ k.masterFd) (hq : k.getStateRes = none) (ha : k.openQryRes = some v) :
    (fetchAvailableVt k).1 = v ∧
    (∀ a : Nat, v ≤ 0 → (setUpNewVt { k with getStateRes := some a }).1 = (a : Int)) := by
  have h' : ¬ k.masterFd < 0 := by omega
  rcases k with ⟨m, gs, oq⟩
  simp only at h' hq ha ⊢
  subst hq ha
  constructor
  · simp [fetchAvailableVt, h']
  · intro a hv
    simp [setUpNewVt, h', hv]

/-- C10 witness: allocation returns 0 after a failed state query;
`fetchAvailableVt` hands the caller 0 as a success value, while
`setUpNewVt` on the same allocation result falls back to the active VT. -/
theorem C10_allocation_result_passthrough_witness :
    (fetchAvailableVt ⟨3, none, some 0⟩).1 = 0 ∧
    (setUpNewVt ⟨3, some 2, some 0⟩).1 = 2 :=
  ⟨(C10_allocation_result_passthrough ⟨3, none, some 0⟩ 0 (by decide) rfl rfl).1,
   (C10_allocation_result_passthrough ⟨3, none, some 0⟩ 0 (by decide) rfl rfl).2 2
     (by decide)⟩

/-- A kernel on which every call succeeds: master fd 3, target fd 4,
activate interrupted twice before completing. -/
def sampleJK : JKernel :=
  { masterFd := 3, targetFd := fun _ => 4, kdSetGraphicsFails := false,
    activeF := noFaults, hsSetModeFails := false,
    activeInit := ⟨0, 1, 0, 0⟩, targetInit := ⟨0, 0, 0, 0⟩,
    responses := [ActRes.eintr, ActRes.eintr, ActRes.ok, ActRes.ok] }

/-- A kernel on which the master open fails (`open` returns `-1`) while
the target open succeeds with fd 5. -/
def masterFailJK : JKernel :=
  { masterFd := -1, targetFd := fun _ => 5, kdSetGraphicsFails := false,
    activeF := noFaults, hsSetModeFails := false,
    activeInit := ⟨0, 1, 0, 0⟩, targetInit := ⟨0, 0, 0, 0⟩,
    responses := [] }

/-- A kernel on which both the master and the target open fail. -/
def bothFailJK : JKernel :=
  { masterFd := -1, targetFd := fun _ => -1, kdSetGraphicsFails := false,
    activeF := noFaults, hsSetModeFails := false,
    activeInit := ⟨0, 1, 0, 0⟩, targetInit := ⟨0, 0, 0, 0⟩,
    responses := [] }

/-- C2 counterexample: on a kernel whose master open fails, `jumpToVt`
does NOT treat this as a hard failure: it still runs mode repair on the
invalid handle `-1` (`VT_GETMODE`), installs the handshake, issues
activate and wait, and even calls `close(-1)` — the source never checks
`activeVtFd`. -/
theorem C2_counterexample :
    Event.vtGetModeCall (-1) ∈ jumpToVt masterFailJK 2 false ∧
    Event.vtSetModeCall 5 VT_PROCESS RELEASE_DISPLAY_SIGNAL ACQUIRE_DISPLAY_SIGNAL ∈
      jumpToVt masterFailJK 2 false ∧
    Event.vtActivateCall 5 2 ∈ jumpToVt masterFailJK 2 false ∧
    Event.vtWaitActiveCall 5 2 ∈ jumpToVt masterFailJK 2 false ∧
    Event.closeDev (-1) ∈ jumpToVt masterFailJK 2 false := by
  decide

/-- C2 (amended): `jumpToVt` never checks the master-open result; the
activation is always attempted on the operative handle, whatever the
master open returned, and only a failed target-device open is degraded by
substituting the (possibly invalid) master handle as the operative
handle. -/
theorem C2_master_open_not_checked (k : JKernel) (vt : Int) (b : Bool) :
    Event.vtActivateCall (operativeFd k vt) vt ∈ jumpToVt k vt b ∧
    (k.targetFd vt = -1 → operativeFd k vt = k.masterFd) := by
  constructor
  · obtain ⟨t, ht⟩ := runSwitchLoop_head (operativeFd k vt) vt k.responses
    simp [jumpToVt, ht]
  · intro h
    simp [operativeFd, h]

/-- C2 amended witness: with both opens failing, the operative handle
degrades to the master handle and activation is still attempted on it. -/
theorem C2_master_open_not_checked_witness :
    Event.vtActivateCall (operativeFd bothFailJK 2) 2 ∈ jumpToVt bothFailJK 2 false ∧
    operativeFd bothFailJK 2 = bothFailJK.masterFd :=
  ⟨(C2_master_open_not_checked bothFailJK 2 false).1,
   (C2_master_open_not_checked bothFailJK 2 false).2 rfl⟩

/-- C5: the activate/wait loop retries on interruption with the same
target id: the loop's final result is never `eintr`; every event it
issues is an activate or wait call for the same `fd` and `vt`; an
`EINTR` reply to activate retries the activate; an `EINTR` reply to wait
re-runs the loop body; a non-`EINTR` activate failure ends the loop with
the wait call skipped; and `jumpToVt`'s trace embeds exactly this loop
run on the operative handle, so `jumpToVt` (which returns nothing)
never surfaces an interruption. -/
theorem C5_interrupted_always_retried (fd vt : Int) (s : List ActRes)
    (k : JKernel) (b : Bool) :
    (runSwitchLoop fd vt s).2 ≠ ActRes.eintr ∧
    (∀ e ∈ (runSwitchLoop fd vt s).1,
      e = Event.vtActivateCall fd vt ∨ e = Event.vtWaitActiveCall fd vt) ∧
    (runSwitchLoop fd vt (ActRes.eintr :: s)).1 =
      Event.vtActivateCall fd vt :: (runSwitchLoop fd vt s).1 ∧
    (runSwitchLoop fd vt (ActRes.ok :: ActRes.eintr :: s)).1 =
      Event.vtActivateCall fd vt :: Event.vtWaitActiveCall fd vt ::
        (runSwitchLoop fd vt s).1 ∧
    (runSwitchLoop fd vt (ActRes.err :: s)).1 = [Event.vtActivateCall fd vt] ∧
    (∃ l₁ l₂, jumpToVt k vt b =
      l₁ ++ (runSwitchLoop (operativeFd k vt) vt k.responses).1 ++ l₂) := by
  refine ⟨runSwitchLoop_res_ne_eintr fd vt s, runSwitchLoop_trace_mem fd vt s,
    rfl, rfl, rfl, ?_⟩
  unfold jumpToVt
  dsimp only
  exact ⟨_, _, rfl⟩

/-- C1: in a process-driven switch (`priorOwnerGone = false`), the trace
of `jumpToVt` splits as `l₁ ++ l₂` where `l₁` contains the handshake
installation (the `VT_SETMODE` to `PROCESS` with the release/acquire
signal numbers and both handler registrations on the operative handle)
and contains no VT-activate call: every activation strictly follows the
handshake installation. -/
theorem C1_handshake_before_activation (k : JKernel) (vt : Int) (_hvt : 0 < vt) :
    ∃ l₁ l₂, jumpToVt k vt false = l₁ ++ l₂ ∧
      Event.vtSetModeCall (operativeFd k vt) VT_PROCESS RELEASE_DISPLAY_SIGNAL
        ACQUIRE_DISPLAY_SIGNAL ∈ l₁ ∧
      Event.installHandler RELEASE_DISPLAY_SIGNAL ∈ l₁ ∧
      Event.installHandler ACQUIRE_DISPLAY_SIGNAL ∈ l₁ ∧
      (∀ e ∈ l₁, isActivate e = false) := by
  refine ⟨[Event.openDev 0 k.masterFd, Event.openDev vt (k.targetFd vt)] ++
      (if k.targetFd vt ≠ -1 then
        [Event.writeClear (k.targetFd vt),
         Event.kdSetModeCall (k.targetFd vt) KD_GRAPHICS] ++
          (fixVtMode k.activeF k.masterFd false k.activeInit).2.2
       else []) ++
      (handleVtSwitches k.hsSetModeFails (operativeFd k vt)
        (if k.targetFd vt ≠ -1 then
          (if k.kdSetGraphicsFails then k.targetInit
           else { k.targetInit with kdMode := KD_GRAPHICS })
         else k.activeInit)).2.2,
    (runSwitchLoop (operativeFd k vt) vt k.responses).1 ++
      (Event.closeDev k.masterFd ::
        (if k.targetFd vt ≠ -1 then [Event.closeDev (k.targetFd vt)] else [])),
    ?_, ?_, ?_, ?_, ?_⟩
  · unfold jumpToVt
    dsimp only
    simp [List.append_assoc]
  · rw [handleVtSwitches_trace]
    simp
  · rw [handleVtSwitches_trace]
    simp
  · rw [handleVtSwitches_trace]
    simp
  · intro e he
    rw [handleVtSwitches_trace] at he
    simp only [List.mem_append, List.mem_cons, List.not_mem_nil, or_false] at he
    rcases he with ((h | h) | h) | (h | h | h)
    · subst h; rfl
    · subst h; rfl
    · by_cases htf : k.targetFd vt ≠ -1
      · rw [if_pos htf] at h
        simp only [List.mem_append, List.mem_cons, List.not_mem_nil, or_false] at h
        rcases h with (h | h) | h
        · subst h; rfl
        · subst h; rfl
        · rcases fixVtMode_trace_mem _ _ _ _ e h with h|h|h|h|h|h <;> subst h <;> rfl
      · rw [if_neg htf] at h
        simp at h
    · subst h; rfl
    · subst h; rfl
    · subst h; rfl

/-- C1 witness: the ordering theorem at a concrete kernel and target 3. -/
theorem C1_handshake_before_activation_witness :
    (0 : Int) < 3 ∧
    (∃ l₁ l₂, jumpToVt sampleJK 3 false = l₁ ++ l₂ ∧
      Event.vtSetModeCall (operativeFd sampleJK 3) VT_PROCESS RELEASE_DISPLAY_SIGNAL
        ACQUIRE_DISPLAY_SIGNAL ∈ l₁ ∧
      Event.installHandler RELEASE_DISPLAY_SIGNAL ∈ l₁ ∧
      Event.installHandler ACQUIRE_DISPLAY_SIGNAL ∈ l₁ ∧
      (∀ e ∈ l₁, isActivate e = false)) :=
  ⟨by decide, C1_handshake_before_activation sampleJK 3 (by decide)⟩

theorem countOpens_nil (f : Int) : countOpens [] f = 0 := rfl

theorem countCloses_nil (f : Int) : countCloses [] f = 0 := rfl

theorem countOpens_cons (e : Event) (t : List Event) (f : Int) :
    countOpens (e :: t) f = countOpens t f +
      (match e with | Event.openDev _ fd => if fd = f then 1 else 0 | _ => 0) := by
  cases e <;> simp [countOpens, List.countP_cons]

theorem countCloses_cons (e : Event) (t : List Event) (f : Int) :
    countCloses (e :: t) f = countCloses t f +
      (match e with | Event.closeDev fd => if fd = f then 1 else 0 | _ => 0) := by
  cases e <;> simp [countCloses, List.countP_cons]

theorem jumpToVt_countOpens (k : JKernel) (vt : Int) (b : Bool) (f : Int) :
    countOpens (jumpToVt k vt b) f =
      (if k.masterFd = f then 1 else 0) + (if k.targetFd vt = f then 1 else 0) := by
  by_cases htf : k.targetFd vt = -1 <;> cases b <;>
    simp [jumpToVt, htf, countOpens_append, countOpens_cons, countOpens_nil,
      countOpens_fixVtMode, countOpens_handleVtSwitches, countOpens_runSwitchLoop] <;>
    ring

theorem jumpToVt_countCloses (k : JKernel) (vt : Int) (b : Bool) (f : Int) :
    countCloses (jumpToVt k vt b) f =
      (if k.masterFd = f then 1 else 0) +
        (if k.targetFd vt ≠ -1 then (if k.targetFd vt = f then 1 else 0) else 0) := by
  by_cases htf : k.targetFd vt = -1 <;> cases b <;>
    simp [jumpToVt, htf, countCloses_append, countCloses_cons, countCloses_nil,
      countCloses_fixVtMode, countCloses_handleVtSwitches, countCloses_runSwitchLoop] <;>
    ring

/-- C8: handle hygiene.  For every valid descriptor value `f` (a real
`open` returns a non-negative fd), on every path of `jumpToVt`,
`fetchAvailableVt` and `setUpNewVt` — success, fallback and every error
branch — the number of opens returning `f` equals the number of closes
of `f`: every opened handle is closed exactly once before the operation
returns. -/
theorem C8_every_handle_closed_once (k : JKernel) (k₁ k₂ : FKernel)
    (vt : Int) (b : Bool) (f : Int) (hf : 0 ≤ f) :
    countOpens (jumpToVt k vt b) f = countCloses (jumpToVt k vt b) f ∧
    countOpens (fetchAvailableVt k₁).2 f = countCloses (fetchAvailableVt k₁).2 f ∧
    countOpens (setUpNewVt k₂).2 f = countCloses (setUpNewVt k₂).2 f := by
  refine ⟨?_, ?_, ?_⟩
  · rw [jumpToVt_countOpens, jumpToVt_countCloses]
    by_cases htf : k.targetFd vt = -1
    · have hne : ¬ (-1 : Int) = f := by omega
      simp [htf, hne]
    · simp [htf]
  · rcases k₁ with ⟨m, gs, oq⟩
    by_cases hm : m < 0
    · have hmf : m ≠ f := by omega
      simp [fetchAvailableVt, hm, countOpens_cons, countOpens_nil,
        countCloses_cons, countCloses_nil, hmf]
    · rcases gs with _ | a <;> rcases oq with _ | v <;>
        simp [fetchAvailableVt, hm, countOpens_cons, countOpens_nil,
          countCloses_cons, countCloses_nil]
  · rcases k₂ with ⟨m, gs, oq⟩
    by_cases hm : m < 0
    · have hmf : m ≠ f := by omega
      simp [setUpNewVt, hm, countOpens_cons, countOpens_nil,
        countCloses_cons, countCloses_nil, hmf]
    · rcases oq with _ | v
      · simp [setUpNewVt, hm, countOpens_cons, countOpens_nil,
          countCloses_cons, countCloses_nil]
      · by_cases hv : v ≤ 0
        · rcases gs with _ | a <;>
            simp [setUpNewVt, hm, hv, countOpens_cons, countOpens_nil,
              countCloses_cons, countCloses_nil]
        · simp [setUpNewVt, hm, hv, countOpens_cons, countOpens_nil,
            countCloses_cons, countCloses_nil]

/-- C8 witness: the hygiene theorem at concrete kernels and fd 3. -/
theorem C8_every_handle_closed_once_witness :
    countOpens (jumpToVt sampleJK 3 false) 3 =
      countCloses (jumpToVt sampleJK 3 false) 3 ∧
    countOpens (fetchAvailableVt ⟨3, none, some 5⟩).2 3 =
      countCloses (fetchAvailableVt ⟨3, none, some 5⟩).2 3 ∧
    countOpens (setUpNewVt ⟨3, some 2, some 0⟩).2 3 =
      countCloses (setUpNewVt ⟨3, some 2, some 0⟩).2 3 :=
  C8_every_handle_closed_once sampleJK ⟨3, none, some 5⟩ ⟨3, some 2, some 0⟩ 3 false 3
    (by decide)

end VirtualTerminal
end SDDM
